import Mathlib

/-!
# Verification of the forensic risk engine core (src/app.py)

Shallow embedding of the batch transform `calculate_risk` of `src/app.py`
(numeric normalization, ratio calculation, adaptive grouping, rule-based
scoring) and proofs of the specified properties.

Modelling conventions:
* pandas cells of the nine input columns are `RawValue`: a numeric cell
  (binary floating point idealized as an exact rational), a cell whose text
  fails numeric parsing, or a missing cell (NaN).
* `pd.to_numeric(col, errors='coerce').fillna(0)` on one cell is
  `coerceFill0`; the code applies it column-wise, which is per-cell.
* `Series.round(d)` is `roundTo d`, rounding to `d` decimal places over ℚ;
  ties (which pandas resolves on the underlying binary floats) are modelled
  as round-half-up.  No property below depends on a tie.
* The categorical strings produced by the code (risk-group labels, verdict
  strings, grouping-method names) are modelled by inductive types with one
  constructor per distinct string; an observation f-string is modelled by a
  constructor carrying the rational values interpolated into it.
-/

namespace ForensicTool

/-- One pandas cell of an input column: a numeric value, a value that fails
numeric parsing (`pd.to_numeric(..., errors='coerce')` maps it to NaN), or a
missing cell (NaN). -/
inductive RawValue where
  | num (q : ℚ)
  | failsParsing
  | missing
deriving DecidableEq

/-- `pd.to_numeric(·, errors='coerce').fillna(0)` on one cell (app.py line
125): a parsed number stays itself, anything else becomes 0. -/
def coerceFill0 : RawValue → ℚ
  | .num q => q
  | .failsParsing => 0
  | .missing => 0

/-- `Series.round (d)`: round to `d` decimal places. -/
def roundTo (d : ℕ) (x : ℚ) : ℚ := (round (x * 10 ^ d) : ℚ) / 10 ^ d

/-- The `Risk_Group` labels of app.py lines 134 and 137-140. -/
inductive RiskGroup where
  | Critical   -- "🔴 Critical (>50%)"
  | Control    -- "🟢 Control (<50%)"
  | Moderate   -- "🟡 Moderate (10-50%)"
  | Safe       -- "🟢 Safe (<10%)"
deriving DecidableEq

/-- The verdict strings of app.py lines 170-172. -/
inductive Verdict where
  | high       -- "🚨 HIGH PROBABILITY OF MANIPULATION"
  | moderate   -- "⚠️ MODERATE RISK - Monitor Closely"
  | low        -- "✅ LOW RISK - Clean Health"
deriving DecidableEq

/-- The grouping-method strings of app.py lines 135 and 142. -/
inductive GroupingMethod where
  | binary        -- "Binary (Small Sample Protocol)"
  | trafficLight  -- "Traffic Light (Large Sample Protocol)"
deriving DecidableEq

/-- One observation appended to `obs` in `get_detailed_analysis` (app.py
lines 151, 154, 158, 161, 165, 168); each constructor carries the rational
values interpolated into the corresponding f-string. -/
inductive Obs where
  | pledgeCritical (p : ℚ)   -- "🔴 **Critical Pledge Pressure:** {p}% ..."
  | pledgeModerate (p : ℚ)   -- "🟠 **Moderate Pledge:** {p}% pledged."
  | cashFakeProfit (cq : ℚ)  -- "🔴 **Fake Profit Alert:** Cash Quality is {cq}."
  | cashWeak                 -- "🟠 **Weak Cash Flow:** ..."
  | dsoAggressive (d : ℚ)    -- "🔴 **Aggressive Revenue:** Sales take {d} days ..."
  | rptLeakage (i : ℚ)       -- "⚠️ **Leakage Risk:** {i}% sales with Related Parties."
deriving DecidableEq

/-- One dataframe row.  The nine input columns (the `cols` list of app.py
line 123) hold arbitrary cells; the derived columns are created by
`calculate_risk` and default to the values of an absent column. -/
structure Row where
  Company : String := ""
  Pledge_Pct : RawValue := .missing
  Sales : RawValue := .missing
  Receivables : RawValue := .missing
  Inventory : RawValue := .missing
  CFO : RawValue := .missing
  EBITDA : RawValue := .missing
  Total_Assets : RawValue := .missing
  Non_Current_Assets : RawValue := .missing
  RPT_Vol : RawValue := .missing
  DSO : ℚ := 0
  Cash_Quality : ℚ := 0
  AQI : ℚ := 0
  RPT_Intensity : ℚ := 0
  Risk_Group : RiskGroup := .Control
  Forensic_Score : ℕ := 0
  Verdict : Verdict := .low
  Detailed_Report : List Obs := []
deriving DecidableEq

/-- The nine expected numeric columns (`cols`, app.py line 123). -/
inductive FieldName where
  | Sales | Receivables | Inventory | CFO | EBITDA | Pledge_Pct
  | Total_Assets | Non_Current_Assets | RPT_Vol
deriving DecidableEq

/-- Read one of the nine input columns of a row. -/
def getRaw (r : Row) : FieldName → RawValue
  | .Sales => r.Sales
  | .Receivables => r.Receivables
  | .Inventory => r.Inventory
  | .CFO => r.CFO
  | .EBITDA => r.EBITDA
  | .Pledge_Pct => r.Pledge_Pct
  | .Total_Assets => r.Total_Assets
  | .Non_Current_Assets => r.Non_Current_Assets
  | .RPT_Vol => r.RPT_Vol

/-- The numeric-normalization loop of app.py lines 124-125: every one of the
nine input columns is replaced by its coerced-then-filled numeric value.  It
is a total function: no exception can be raised. -/
def normalizeRow (r : Row) : Row :=
  { r with
    Sales := .num (coerceFill0 r.Sales)
    Receivables := .num (coerceFill0 r.Receivables)
    Inventory := .num (coerceFill0 r.Inventory)
    CFO := .num (coerceFill0 r.CFO)
    EBITDA := .num (coerceFill0 r.EBITDA)
    Pledge_Pct := .num (coerceFill0 r.Pledge_Pct)
    Total_Assets := .num (coerceFill0 r.Total_Assets)
    Non_Current_Assets := .num (coerceFill0 r.Non_Current_Assets)
    RPT_Vol := .num (coerceFill0 r.RPT_Vol) }

/-- The ratio calculator of app.py lines 127-130, applied to a row whose
input columns have been normalized. -/
def addRatios (r : Row) : Row :=
  { r with
    DSO := roundTo 1 (if coerceFill0 r.Sales > 0
      then coerceFill0 r.Receivables / coerceFill0 r.Sales * 365 else 0)
    Cash_Quality := roundTo 2 (if coerceFill0 r.EBITDA > 0
      then coerceFill0 r.CFO / coerceFill0 r.EBITDA else 0)
    AQI := roundTo 2 (if coerceFill0 r.Total_Assets > 0
      then coerceFill0 r.Non_Current_Assets / coerceFill0 r.Total_Assets else 0)
    RPT_Intensity := roundTo 1 (if coerceFill0 r.Sales > 0
      then coerceFill0 r.RPT_Vol / coerceFill0 r.Sales * 100 else 0) }

/-- The binary bucket lambda of app.py line 134. -/
def binaryBucket (p : ℚ) : RiskGroup :=
  if p > 50 then .Critical else .Control

/-- `get_3_buckets` of app.py lines 137-140. -/
def get_3_buckets (p : ℚ) : RiskGroup :=
  if p > 50 then .Critical
  else if p ≥ 10 then .Moderate
  else .Safe

/-- The adaptive grouper of app.py lines 132-142 applied to one pledge
percentage, given the sample size `len(df)`. -/
def riskGroupOf (sampleSize : ℕ) (p : ℚ) : RiskGroup :=
  if sampleSize < 30 then binaryBucket p else get_3_buckets p

/-- The grouping-method label picked in app.py lines 135 and 142. -/
def groupingMethodOf (sampleSize : ℕ) : GroupingMethod :=
  if sampleSize < 30 then .binary else .trafficLight

/-- `get_detailed_analysis` of app.py lines 144-174: accumulate the score
and observation list over the four rule categories, then map the score to a
verdict. -/
def get_detailed_analysis (row : Row) : ℕ × Verdict × List Obs :=
  let p := coerceFill0 row.Pledge_Pct
  let acc0 : ℕ × List Obs := (0, [])
  let acc1 :=
    if p > 50 then (acc0.1 + 25, acc0.2 ++ [Obs.pledgeCritical p])
    else if p > 20 then (acc0.1 + 10, acc0.2 ++ [Obs.pledgeModerate p])
    else acc0
  let acc2 :=
    if row.Cash_Quality < 1/2 then (acc1.1 + 30, acc1.2 ++ [Obs.cashFakeProfit row.Cash_Quality])
    else if row.Cash_Quality < 4/5 then (acc1.1 + 15, acc1.2 ++ [Obs.cashWeak])
    else acc1
  let acc3 :=
    if row.DSO > 120 then (acc2.1 + 20, acc2.2 ++ [Obs.dsoAggressive row.DSO])
    else acc2
  let acc4 :=
    if row.RPT_Intensity > 10 then (acc3.1 + 10, acc3.2 ++ [Obs.rptLeakage row.RPT_Intensity])
    else acc3
  let verdict :=
    if acc4.1 ≥ 60 then Verdict.high
    else if acc4.1 ≥ 35 then Verdict.moderate
    else Verdict.low
  (acc4.1, verdict, acc4.2)

/-- The whole per-row work of `calculate_risk`: normalize the input columns,
derive the four ratios, assign the risk group, then score.  The code does
each stage column-wise over the frame, but every stage is per-row except for
`sample_size`, which is passed in. -/
def processRow (sampleSize : ℕ) (r : Row) : Row :=
  let r1 := addRatios (normalizeRow r)
  let r2 := { r1 with Risk_Group := riskGroupOf sampleSize (coerceFill0 r1.Pledge_Pct) }
  let res := get_detailed_analysis r2
  { r2 with
    Forensic_Score := res.1
    Verdict := res.2.1
    Detailed_Report := res.2.2 }

/-- `calculate_risk` of app.py lines 122-181: the batch transform returning
the augmented frame and the grouping-method label. -/
def calculate_risk (df : List Row) : List Row × GroupingMethod :=
  (df.map (processRow df.length), groupingMethodOf df.length)

/-- Spec-side definition, for the refinement claim C2.  It follows the
spec's words: "Final verdict tier by cumulative score: ≥60 → high
probability of manipulation; 35–59 → moderate risk; <35 → low risk". -/
def spec_verdict_tier (s : ℕ) : Verdict :=
  if s ≥ 60 then .high
  else if s ≥ 35 then .moderate
  else .low

/-- The end-to-end example record of the spec: Sales 12000, Receivables
3500, CFO 2000, EBITDA 4000, Pledge_Pct 99, every other numeric field 0. -/
def exampleRow : Row :=
  { Pledge_Pct := .num 99, Sales := .num 12000, Receivables := .num 3500,
    Inventory := .num 0, CFO := .num 2000, EBITDA := .num 4000,
    Total_Assets := .num 0, Non_Current_Assets := .num 0, RPT_Vol := .num 0 }

/-- The expected output row of the end-to-end example. -/
def exampleRowOut : Row :=
  { Pledge_Pct := .num 99, Sales := .num 12000, Receivables := .num 3500,
    Inventory := .num 0, CFO := .num 2000, EBITDA := .num 4000,
    Total_Assets := .num 0, Non_Current_Assets := .num 0, RPT_Vol := .num 0,
    DSO := 106.5, Cash_Quality := 0.5, AQI := 0, RPT_Intensity := 0,
    Risk_Group := .Critical, Forensic_Score := 40, Verdict := .moderate,
    Detailed_Report := [.pledgeCritical 99, .cashWeak] }

/-- A row whose pledge cell is 60 (exceeds the critical threshold). -/
def rowP60 : Row := { Pledge_Pct := .num 60 }

/-- A row whose pledge cell is 20 (inside the moderate band of the ternary
grouper). -/
def rowP20 : Row := { Pledge_Pct := .num 20 }

/-- A row with every cell missing; its normalized pledge is 0. -/
def rowP0 : Row := {}

/-- A row with negative Sales and EBITDA and a nonzero CFO, exercising the
negative-denominator guards. -/
def rowNeg : Row :=
  { Sales := .num (-3), CFO := .num 7, EBITDA := .num (-5) }

/-- A 29-row batch: one row above the critical pledge threshold, 28 with
missing cells. -/
def batch29 : List Row := rowP60 :: List.replicate 28 rowP0

/-- A 30-row batch with pledge cells 60, 20 and 28 missing ones. -/
def batch30 : List Row := rowP60 :: rowP20 :: List.replicate 28 rowP0

/-! ## Helper lemmas -/

@[simp] lemma coerceFill0_num (q : ℚ) : coerceFill0 (.num q) = q := rfl

@[simp] lemma coerceFill0_missing : coerceFill0 .missing = 0 := rfl

@[simp] lemma coerceFill0_failsParsing : coerceFill0 .failsParsing = 0 := rfl

@[simp] lemma roundTo_zero (d : ℕ) : roundTo d 0 = 0 := by
  simp [roundTo]

lemma processRow_Risk_Group (n : ℕ) (r : Row) :
    (processRow n r).Risk_Group = riskGroupOf n (coerceFill0 r.Pledge_Pct) := rfl

/-- The accumulated score equals a sum of four independent, per-category
tiered contributions. -/
lemma score_decomp (r : Row) :
    (get_detailed_analysis r).1
      = (if coerceFill0 r.Pledge_Pct > 50 then 25
         else if coerceFill0 r.Pledge_Pct > 20 then 10 else 0)
        + (if r.Cash_Quality < 1/2 then 30 else if r.Cash_Quality < 4/5 then 15 else 0)
        + (if r.DSO > 120 then 20 else 0)
        + (if r.RPT_Intensity > 10 then 10 else 0) := by
  unfold get_detailed_analysis
  split_ifs <;> simp [*]

/-- The observation list is the concatenation of the per-category
observation fragments, in rule-evaluation order. -/
lemma report_decomp (r : Row) :
    (get_detailed_analysis r).2.2
      = (if coerceFill0 r.Pledge_Pct > 50 then [Obs.pledgeCritical (coerceFill0 r.Pledge_Pct)]
         else if coerceFill0 r.Pledge_Pct > 20 then [Obs.pledgeModerate (coerceFill0 r.Pledge_Pct)]
         else [])
        ++ (if r.Cash_Quality < 1/2 then [Obs.cashFakeProfit r.Cash_Quality]
            else if r.Cash_Quality < 4/5 then [Obs.cashWeak] else [])
        ++ (if r.DSO > 120 then [Obs.dsoAggressive r.DSO] else [])
        ++ (if r.RPT_Intensity > 10 then [Obs.rptLeakage r.RPT_Intensity] else []) := by
  unfold get_detailed_analysis
  split_ifs <;> simp [*]

/-- One pass of the per-row work is a fixed point of a second pass. -/
lemma processRow_idem (n : ℕ) (r : Row) :
    processRow n (processRow n r) = processRow n r := rfl

/-! ## Claims -/

/-- C1: for every normalized, ratio-augmented record, the score is the sum
of four independent rule contributions with tiered (if/elif) exclusivity
inside each category — +25 for Pledge_Pct > 50 else +10 for Pledge_Pct >
20; +30 for Cash_Quality < 0.5 else +15 for Cash_Quality < 0.8; +20 for
DSO > 120; +10 for RPT_Intensity > 10 — and the observation list holds
exactly one entry per triggered rule, in the order Pledge, Cash, DSO,
Related-party. -/
theorem scoring_rule_decomposition (r : Row) :
    (get_detailed_analysis r).1
      = (if coerceFill0 r.Pledge_Pct > 50 then 25
         else if coerceFill0 r.Pledge_Pct > 20 then 10 else 0)
        + (if r.Cash_Quality < 1/2 then 30 else if r.Cash_Quality < 4/5 then 15 else 0)
        + (if r.DSO > 120 then 20 else 0)
        + (if r.RPT_Intensity > 10 then 10 else 0)
  ∧ (get_detailed_analysis r).2.2
      = (if coerceFill0 r.Pledge_Pct > 50 then [Obs.pledgeCritical (coerceFill0 r.Pledge_Pct)]
         else if coerceFill0 r.Pledge_Pct > 20 then [Obs.pledgeModerate (coerceFill0 r.Pledge_Pct)]
         else [])
        ++ (if r.Cash_Quality < 1/2 then [Obs.cashFakeProfit r.Cash_Quality]
            else if r.Cash_Quality < 4/5 then [Obs.cashWeak] else [])
        ++ (if r.DSO > 120 then [Obs.dsoAggressive r.DSO] else [])
        ++ (if r.RPT_Intensity > 10 then [Obs.rptLeakage r.RPT_Intensity] else []) :=
  ⟨score_decomp r, report_decomp r⟩

/-- C2: the verdict is a pure function of the cumulative score with the cut
values 60 and 35 (≥ 60 high probability of manipulation, 35–59 moderate
risk, < 35 low risk), and it is always one of the three tier labels. -/
theorem verdict_pure_function_of_score (r : Row) :
    (get_detailed_analysis r).2.1 = spec_verdict_tier (get_detailed_analysis r).1
  ∧ ((get_detailed_analysis r).2.1 = Verdict.high
      ∨ (get_detailed_analysis r).2.1 = Verdict.moderate
      ∨ (get_detailed_analysis r).2.1 = Verdict.low) := by
  have h1 : (get_detailed_analysis r).2.1 = spec_verdict_tier (get_detailed_analysis r).1 := rfl
  refine ⟨h1, ?_⟩
  rw [h1]
  unfold spec_verdict_tier
  split_ifs <;> simp

/-- C3: the ratio calculator produces DSO = Receivables/Sales × 365 rounded
to 1 place when Sales > 0 and 0 otherwise, Cash_Quality = CFO/EBITDA
rounded to 2 places when EBITDA > 0 and 0 otherwise, AQI =
Non_Current_Assets/Total_Assets rounded to 2 places when Total_Assets > 0
and 0 otherwise, and RPT_Intensity = RPT_Vol/Sales × 100 rounded to 1 place
when Sales > 0 and 0 otherwise; nonpositive (in particular negative)
denominators zero the ratio. -/
theorem ratio_calculator_guards (r : Row) :
    (0 < coerceFill0 r.Sales →
      (addRatios (normalizeRow r)).DSO
        = roundTo 1 (coerceFill0 r.Receivables / coerceFill0 r.Sales * 365))
  ∧ (coerceFill0 r.Sales ≤ 0 → (addRatios (normalizeRow r)).DSO = 0)
  ∧ (0 < coerceFill0 r.EBITDA →
      (addRatios (normalizeRow r)).Cash_Quality
        = roundTo 2 (coerceFill0 r.CFO / coerceFill0 r.EBITDA))
  ∧ (coerceFill0 r.EBITDA ≤ 0 → (addRatios (normalizeRow r)).Cash_Quality = 0)
  ∧ (0 < coerceFill0 r.Total_Assets →
      (addRatios (normalizeRow r)).AQI
        = roundTo 2 (coerceFill0 r.Non_Current_Assets / coerceFill0 r.Total_Assets))
  ∧ (coerceFill0 r.Total_Assets ≤ 0 → (addRatios (normalizeRow r)).AQI = 0)
  ∧ (0 < coerceFill0 r.Sales →
      (addRatios (normalizeRow r)).RPT_Intensity
        = roundTo 1 (coerceFill0 r.RPT_Vol / coerceFill0 r.Sales * 100))
  ∧ (coerceFill0 r.Sales ≤ 0 → (addRatios (normalizeRow r)).RPT_Intensity = 0) := by
  refine ⟨fun h => ?_, fun h => ?_, fun h => ?_, fun h => ?_,
         fun h => ?_, fun h => ?_, fun h => ?_, fun h => ?_⟩ <;>
    simp [addRatios, normalizeRow, h, not_lt.mpr]

/-- Witness for C3: on the record with Sales = -3, CFO = 7, EBITDA = -5,
the negative EBITDA with nonzero CFO yields Cash_Quality = 0 and the
negative Sales yields DSO = 0. -/
theorem ratio_calculator_guards_witness :
    coerceFill0 rowNeg.EBITDA ≤ 0 ∧ coerceFill0 rowNeg.CFO = 7
  ∧ (addRatios (normalizeRow rowNeg)).Cash_Quality = 0
  ∧ coerceFill0 rowNeg.Sales ≤ 0
  ∧ (addRatios (normalizeRow rowNeg)).DSO = 0 := by
  refine ⟨by norm_num [rowNeg, coerceFill0], by norm_num [rowNeg, coerceFill0],
    (ratio_calculator_guards rowNeg).2.2.2.1 (by norm_num [rowNeg, coerceFill0]),
    by norm_num [rowNeg, coerceFill0],
    (ratio_calculator_guards rowNeg).2.1 (by norm_num [rowNeg, coerceFill0])⟩

/-- C4: the adaptive grouper is binary (Critical above pledge 50, else
Control) for fewer than 30 records and ternary (Critical above 50, Moderate
from 10 to 50, else Safe) for 30 or more; pledge exactly 50 is never
Critical, and pledge exactly 10 in a batch of at least 30 is Moderate. -/
theorem adaptive_grouper_thresholds (n : ℕ) (p : ℚ) :
    (n < 30 → riskGroupOf n p
      = (if p > 50 then RiskGroup.Critical else RiskGroup.Control))
  ∧ (30 ≤ n → riskGroupOf n p
      = (if p > 50 then RiskGroup.Critical
         else if 10 ≤ p then RiskGroup.Moderate else RiskGroup.Safe))
  ∧ (30 ≤ n → 10 ≤ p → p ≤ 50 → riskGroupOf n p = RiskGroup.Moderate)
  ∧ riskGroupOf n 50 ≠ RiskGroup.Critical
  ∧ (30 ≤ n → riskGroupOf n 10 = RiskGroup.Moderate) := by
  unfold riskGroupOf binaryBucket get_3_buckets
  refine ⟨fun h => ?_, fun h => ?_, fun h h1 h2 => ?_, ?_, fun h => ?_⟩ <;>
    split_ifs <;> simp_all <;> linarith

/-- Witness for C4: concrete boundary evaluations of the grouper at sample
sizes 29 and 30. -/
theorem adaptive_grouper_thresholds_witness :
    riskGroupOf 29 (51 : ℚ) = RiskGroup.Critical
  ∧ riskGroupOf 29 (50 : ℚ) = RiskGroup.Control
  ∧ riskGroupOf 30 (10 : ℚ) = RiskGroup.Moderate
  ∧ riskGroupOf 30 (50 : ℚ) ≠ RiskGroup.Critical := by
  refine ⟨?_, ?_, (adaptive_grouper_thresholds 30 10).2.2.2.2 (by norm_num),
    (adaptive_grouper_thresholds 30 50).2.2.2.1⟩
  · have h := (adaptive_grouper_thresholds 29 51).1 (by norm_num)
    simpa using h
  · have h := (adaptive_grouper_thresholds 29 50).1 (by norm_num)
    simpa using h

/-- C5: the numeric normalizer makes every expected numeric field a valid
number: it is a total function (no exception), it maps every cell to its
coerced numeric value, and a missing cell or a cell failing numeric parsing
becomes 0. -/
theorem normalizer_defaults_to_zero (r : Row) (f : FieldName) :
    getRaw (normalizeRow r) f = .num (coerceFill0 (getRaw r f))
  ∧ (getRaw r f = .missing → getRaw (normalizeRow r) f = .num 0)
  ∧ (getRaw r f = .failsParsing → getRaw (normalizeRow r) f = .num 0) := by
  cases f <;>
    exact ⟨rfl, fun h => by simp [getRaw, normalizeRow] at h ⊢; simp [h],
           fun h => by simp [getRaw, normalizeRow] at h ⊢; simp [h]⟩

/-- Witness for C5: the all-missing row normalizes its Sales cell to 0, and
a numeric pledge cell of 60 is kept at 60. -/
theorem normalizer_defaults_to_zero_witness :
    getRaw rowP0 FieldName.Sales = .missing
  ∧ getRaw (normalizeRow rowP0) FieldName.Sales = .num 0
  ∧ getRaw rowP60 FieldName.Pledge_Pct = .num 60
  ∧ getRaw (normalizeRow rowP60) FieldName.Pledge_Pct = .num 60 := by
  refine ⟨rfl, (normalizer_defaults_to_zero rowP0 FieldName.Sales).2.1 rfl, rfl, ?_⟩
  have h := (normalizer_defaults_to_zero rowP60 FieldName.Pledge_Pct).1
  simpa [rowP60, getRaw, coerceFill0] using h

/-- C6: on the single record with Sales 12000, Receivables 3500, CFO 2000,
EBITDA 4000, Pledge_Pct 99 and every other numeric field 0, the pipeline
yields DSO = 106.5, Cash_Quality = 0.5, fires exactly the severe pledge
rule (+25) and the moderate cash rule (+15), giving score 40 and the
moderate-risk verdict. -/
theorem end_to_end_example :
    calculate_risk [exampleRow] = ([exampleRowOut], GroupingMethod.binary) := by
  norm_num [calculate_risk, processRow, normalizeRow, addRatios, get_detailed_analysis,
    riskGroupOf, binaryBucket, groupingMethodOf, coerceFill0, exampleRow, exampleRowOut,
    roundTo, round_eq]

/-- C7: for every record, replacing Pledge_Pct 49 by 51 while holding every
other field fixed increases the score by exactly 15 = 25 - 10. -/
theorem pledge_49_to_51_adds_15 (r : Row) :
    (get_detailed_analysis { r with Pledge_Pct := .num 51 }).1
      = (get_detailed_analysis { r with Pledge_Pct := .num 49 }).1 + 15 := by
  rw [score_decomp, score_decomp]
  norm_num
  split_ifs <;> omega

/-- C8: the batch transform is idempotent: a second run of the ratio
calculator, grouper and scoring engine on an already-augmented record set
returns exactly the same derived values and grouping method. -/
theorem batch_transform_idempotent (df : List Row) :
    calculate_risk (calculate_risk df).1 = calculate_risk df := by
  simp only [calculate_risk, List.length_map, List.map_map]
  have h : processRow df.length ∘ processRow df.length = processRow df.length :=
    funext fun r => processRow_idem df.length r
  rw [h]

/-- C9: in every 29-record batch only the binary labels Critical and
Control can appear, and some 29-record batch shows both; in every 30-record
batch only Critical, Moderate and Safe can appear, and some 30-record batch
shows all three. -/
theorem grouper_label_sets_29_30 :
    (∀ df : List Row, df.length = 29 → ∀ r ∈ (calculate_risk df).1,
        r.Risk_Group = RiskGroup.Critical ∨ r.Risk_Group = RiskGroup.Control)
  ∧ (∃ df : List Row, df.length = 29
      ∧ (∃ r ∈ (calculate_risk df).1, r.Risk_Group = RiskGroup.Critical)
      ∧ (∃ r ∈ (calculate_risk df).1, r.Risk_Group = RiskGroup.Control))
  ∧ (∀ df : List Row, df.length = 30 → ∀ r ∈ (calculate_risk df).1,
        r.Risk_Group = RiskGroup.Critical ∨ r.Risk_Group = RiskGroup.Moderate
          ∨ r.Risk_Group = RiskGroup.Safe)
  ∧ (∃ df : List Row, df.length = 30
      ∧ (∃ r ∈ (calculate_risk df).1, r.Risk_Group = RiskGroup.Critical)
      ∧ (∃ r ∈ (calculate_risk df).1, r.Risk_Group = RiskGroup.Moderate)
      ∧ (∃ r ∈ (calculate_risk df).1, r.Risk_Group = RiskGroup.Safe)) := by
  refine ⟨?_, ?_, ?_, ?_⟩
  · intro df hlen r hr
    simp only [calculate_risk] at hr
    obtain ⟨r0, hr0, rfl⟩ := List.mem_map.1 hr
    rw [processRow_Risk_Group, hlen]
    unfold riskGroupOf binaryBucket get_3_buckets
    split_ifs <;> simp_all
  · refine ⟨batch29, by simp [batch29], ⟨processRow 29 rowP60, ?_, ?_⟩,
      ⟨processRow 29 rowP0, ?_, ?_⟩⟩
    · simp [calculate_risk, batch29]
    · rw [processRow_Risk_Group]
      norm_num [rowP60, coerceFill0, riskGroupOf, binaryBucket]
    · simp [calculate_risk, batch29]
    · rw [processRow_Risk_Group]
      norm_num [rowP0, coerceFill0, riskGroupOf, binaryBucket]
  · intro df hlen r hr
    simp only [calculate_risk] at hr
    obtain ⟨r0, hr0, rfl⟩ := List.mem_map.1 hr
    rw [processRow_Risk_Group, hlen]
    unfold riskGroupOf binaryBucket get_3_buckets
    split_ifs <;> simp_all
  · refine ⟨batch30, by simp [batch30], ⟨processRow 30 rowP60, ?_, ?_⟩,
      ⟨processRow 30 rowP20, ?_, ?_⟩, ⟨processRow 30 rowP0, ?_, ?_⟩⟩
    · simp [calculate_risk, batch30]
    · rw [processRow_Risk_Group]
      norm_num [rowP60, coerceFill0, riskGroupOf, get_3_buckets]
    · simp [calculate_risk, batch30]
    · rw [processRow_Risk_Group]
      norm_num [rowP20, coerceFill0, riskGroupOf, get_3_buckets]
    · simp [calculate_risk, batch30]
    · rw [processRow_Risk_Group]
      norm_num [rowP0, coerceFill0, riskGroupOf, get_3_buckets]

/-- Witness for C9: the universally quantified parts applied to the
concrete 29-row and 30-row batches. -/
theorem grouper_label_sets_29_30_witness :
    ((processRow 29 rowP60).Risk_Group = RiskGroup.Critical
      ∨ (processRow 29 rowP60).Risk_Group = RiskGroup.Control)
  ∧ ((processRow 30 rowP20).Risk_Group = RiskGroup.Critical
      ∨ (processRow 30 rowP20).Risk_Group = RiskGroup.Moderate
      ∨ (processRow 30 rowP20).Risk_Group = RiskGroup.Safe) := by
  constructor
  · exact grouper_label_sets_29_30.1 batch29 (by simp [batch29]) _
      (by simp [calculate_risk, batch29])
  · exact grouper_label_sets_29_30.2.2.1 batch30 (by simp [batch30]) _
      (by simp [calculate_risk, batch30])

/-- C10: the score is a natural number bounded by 85 = 25 + 30 + 20 + 10,
hence never exceeds the 100 implied by the score display. -/
theorem forensic_score_bounded (r : Row) :
    (get_detailed_analysis r).1 ≤ 85 ∧ (get_detailed_analysis r).1 ≤ 100 := by
  rw [score_decomp]
  split_ifs <;> omega

end ForensicTool
